import Mathlib

/-!
Verification development for the BlindVision web assistant
(`src/web/app.js`, class `BlindVisionApp`).

The JavaScript application is a single-threaded, callback-driven turn
controller sharing one microphone and one speaker.  We embed it shallowly:

* the scattered instance fields (`isPlaying`, `isListening`,
  `continuousListening`, `speechQueue`, `currentAudio`, ...) become the
  fields of `BlindVisionApp.AppState`;
* each DOM / platform callback (`recognition.onresult`, `recognition.onerror`,
  `recognition.onend`, `audio.onended`, `handleTouchControl`, the mobile
  restart interval) becomes a state-transformer translated line by line from
  the source;
* every `setTimeout` continuation becomes a pending `TAction` stored in the
  state; firing a pending timer is an explicit event, so arbitrary
  interleavings of the callbacks can be explored.  Concrete traces used in
  theorems are always realizable under the actual delays of the source
  (300 ms settle wait inside `speak`, 500 ms queued-speech delay and 1500 ms
  recognition-restart delay in `audio.onended`, 20 s watchdog period).

Platform conventions of the model (documented divergences, all at the
platform boundary, not in the translated controller code):
* `recognition.stop()` makes the capability inactive at once and makes the
  platform owe an `onend` callback (`pendingOnEnd`);
* `recognition.start()` is modeled as succeeding (browser permission errors
  arrive through `onerror`, which is modeled); the generic retry-on-throw
  branch of `startContinuousListening` is therefore never taken and is not
  modeled;
* only the ElevenLabs playback path is modeled (the source sets
  `useElevenLabs = true`); network latency of the speech fetch is folded
  into the pending `playStart` action.
-/

namespace BlindVisionApp

/-- Lower-case a string character by character, as `String.prototype.toLowerCase`
does for the ASCII transcripts handled by the app. -/
def lowerStr (s : String) : String :=
  String.mk (s.toList.map Char.toLower)

/-- Trim leading and trailing whitespace, as `String.prototype.trim` (used on
the transcript at `app.js:122`). -/
def trimStr (s : String) : String :=
  String.mk (((s.toList.dropWhile Char.isWhitespace).reverse.dropWhile Char.isWhitespace).reverse)

/-- Split on every single space character, exactly like
`String.prototype.split(' ')` (used at `app.js:127`): consecutive spaces
produce empty chunks and the empty string yields one empty chunk. -/
def splitSp (acc : List Char) : List Char → List String
  | [] => [String.mk acc.reverse]
  | c :: cs =>
      if c == ' ' then String.mk acc.reverse :: splitSp [] cs
      else splitSp (c :: acc) cs

/-- The word list of a transcript: `transcript.toLowerCase().split(' ')`
(`app.js:127`). -/
def wordsOf (t : String) : List String :=
  splitSp [] (lowerStr t).toList

/-- Whether the first list starts with the second one (helper for the
substring test below). -/
def startsWithChars : List Char → List Char → Bool
  | _, [] => true
  | [], _ :: _ => false
  | h :: hs, p :: ps => h == p && startsWithChars hs ps

/-- Whether `needle` occurs contiguously inside `hay` (helper for
`String.prototype.includes`). -/
def hasSubChars (hay needle : List Char) : Bool :=
  match hay with
  | [] => needle.isEmpty
  | _ :: t => startsWithChars hay needle || hasSubChars t needle

/-- Substring test, as `String.prototype.includes` used by the echo denylist
(`app.js:131-133`) and by `handleVoiceCommand` (`app.js:825-838`). -/
def containsStr (hay needle : String) : Bool :=
  hasSubChars hay.toList needle.toList

/-- The domain keyword set of the utterance filter (`app.js:126`). -/
def questionWords : List String :=
  ["where", "what", "how", "can", "do", "is", "find", "see", "help",
   "color", "glasses", "backpack", "bag"]

/-- Whether some word of the transcript is a domain keyword:
`questionWords.some(q => words.includes(q))` (`app.js:128`). -/
def hasQuestionWord (t : String) : Bool :=
  questionWords.any (fun q => (wordsOf t).contains q)

/-- The echo denylist test of the utterance filter (`app.js:131-133`):
the lower-cased transcript contains one of three phrase fragments of the
assistant's own voice. -/
def isEcho (t : String) : Bool :=
  containsStr (lowerStr t) "the person on the left" ||
  containsStr (lowerStr t) "wearing glasses and" ||
  containsStr (lowerStr t) "room with"

/-- The utterance filter acceptance test, inlined in `recognition.onresult`
(`app.js:135`): `!isEcho && (words.length > 3 || (hasQuestionWord && words.length > 1))`. -/
def filterAccepts (t : String) : Bool :=
  !isEcho t &&
    (decide ((wordsOf t).length > 3) ||
      (hasQuestionWord t && decide ((wordsOf t).length > 1)))

/-- Apostrophe character, spliced into message strings below. -/
def apos : Char := Char.ofNat 39

/-- Message spoken on a `no-speech` recognition error (`app.js:150`). -/
def noSpeechMsg : String :=
  "I didn" ++ String.singleton apos ++ "t hear anything. Please try again."

/-- Message spoken on a `network` recognition error (`app.js:153`). -/
def networkMsg : String := "Network error. Please check your connection."

/-- Help message of `handleVoiceCommand` (`app.js:826`). -/
def helpMsg : String :=
  "I can help you find things. Just ask: Where is my backpack? Do you see a bag? What" ++
    String.singleton apos ++ "s in front of me?"

/-- Rewritten query used when the user asks about glasses (`app.js:838`). -/
def glassesQuery : String :=
  "Where are my glasses or sunglasses? Look for them specifically."

/-- Fallback spoken when the camera frame cannot be captured (`app.js:848`). -/
def captureFailMsg : String :=
  "Unable to capture image. Please make sure the camera is active."

/-- Fallback spoken when the scene query fails (`app.js:913`). -/
def apologyMsg : String :=
  "Sorry, I had trouble analyzing that. Please try again."

/-- A pending `setTimeout` continuation of the source, kept in the state so
that callback interleavings are explicit. -/
inductive TAction where
  /-- A scheduled `this.speak(text)` call (`app.js:373`, `app.js:523`, `app.js:609`). -/
  | runSpeak (t : String)
  /-- The continuation of `speak` after its 300 ms settle wait (`app.js:353`):
  `speakWithElevenLabs` runs, playback of `t` begins, then the queue tail of
  `speak` (`app.js:371-376`) runs. -/
  | playStart (t : String)
  /-- The restart scheduled by `recognition.onend` (`app.js:168-173`); its body
  rechecks `continuousListening && !isPlaying` before restarting. -/
  | restartGuarded
  /-- The restart scheduled by `audio.onended` (`app.js:509-511`); its body
  calls `startContinuousListening()` with no recheck. -/
  | restartPlain
  /-- The inner 200 ms restart of the mobile watchdog tick (`app.js:746-762`);
  its body rechecks `continuousListening && !isPlaying && !isListening`. -/
  | tickInner
deriving DecidableEq

/-- Recognition error kinds, mapping the `event.error` strings compared in
`recognition.onerror` (`app.js:147-154`): `no-speech`, `network`,
`not-allowed` (permission denied), anything else. -/
inductive ErrKind where
  | noSpeech
  | network
  | notAllowed
  | otherErr
deriving DecidableEq

/-- The spec-level turn state, derived from the flags of the application
(spec section 3, `TurnState`). -/
inductive TState where
  | Idle
  | Listening
  | Processing
  | Speaking
deriving DecidableEq

/-- The mutable state of `BlindVisionApp`, plus the platform-owned pieces the
callbacks interact with (active capability flags, pending timers). -/
structure AppState where
  /-- `this.isPlaying` (`app.js:14`). -/
  isPlaying : Bool
  /-- `this.isListening` (`app.js:21`). -/
  isListening : Bool
  /-- `this.continuousListening` (`app.js:24`). -/
  continuousListening : Bool
  /-- Whether `this.recognition` is non-null, i.e. the speech-input capability
  is supported and was constructed (`app.js:85-101`). -/
  recAvailable : Bool
  /-- Whether the platform speech-input capability is actually running
  (the mic is armed). -/
  recActive : Bool
  /-- Whether the platform owes an `onend` callback after a stop or an error. -/
  pendingOnEnd : Bool
  /-- Whether an external scene query (`askAboutScene` fetch) is in flight. -/
  queryInFlight : Bool
  /-- Whether `captureFrame()` can produce an image (`app.js:624-635`). -/
  cameraReady : Bool
  /-- `this.currentAudio` (`app.js:13`): the audio element playing, with its text. -/
  currentAudio : Option String
  /-- Audio elements that keep playing after being orphaned: created by
  `speakWithElevenLabs` and later overwritten in `this.currentAudio` without
  being paused.  They are not reachable from `document.querySelectorAll`,
  so `stopAllAudio` cannot stop them. -/
  extraAudios : List String
  /-- `this.speechQueue` (`app.js:9`). -/
  speechQueue : List String
  /-- Pending `setTimeout` continuations, oldest first. -/
  timers : List TAction
  /-- Whether the user agent is mobile (`app.js:720`), fixed for a run. -/
  mobile : Bool
  /-- `this.mobileRestartInterval` is set (`app.js:735`). -/
  mobileInterval : Bool
  /-- The question text of the in-flight query, if any. -/
  pendingQuestion : Option String
deriving DecidableEq

/-- The spec's `TurnState` as a view of the implementation flags:
playback active is `Speaking`, a query in flight is `Processing`, an armed
mic is `Listening`, otherwise `Idle`. -/
def turnState (s : AppState) : TState :=
  if s.isPlaying then TState.Speaking
  else if s.queryInFlight then TState.Processing
  else if s.recActive then TState.Listening
  else TState.Idle

/-- Count of simultaneously active playbacks: the current audio plus any
orphaned ones. -/
def activePlaybackCount (s : AppState) : Nat :=
  (if s.currentAudio.isSome then 1 else 0) + s.extraAudios.length

/-- Effect of `this.recognition.stop()` on the platform: the capability stops
and an `onend` callback becomes due.  Calling it on an already stopped
handle is a no-op. -/
def recStopCall (s : AppState) : AppState :=
  if s.recActive then { s with recActive := false, pendingOnEnd := true } else s

/-- `stopAllAudio` (`app.js:379-428`): pauses and drops `this.currentAudio`
(removing its event listeners), cancels speech synthesis, and clears
`isPlaying`.  It touches neither the speech queue nor the recognition state,
and the `document.querySelectorAll` loop cannot reach the orphaned detached
audio elements. -/
def stopAllAudio (s : AppState) : AppState :=
  { s with currentAudio := none, isPlaying := false }

/-- `handleTouchControl` (`app.js:248-256`): a touch or click stops audio if
playing, and does nothing else. -/
def handleTouchControl (s : AppState) : AppState :=
  if s.isPlaying then stopAllAudio s else s

/-- The synchronous prefix of `speak(text)` (`app.js:326-353`): if already
playing, push the text on the queue and return; otherwise stop recognition
(if listening), set `isPlaying` (it survives the `stopAllAudio` call inside,
`app.js:344-350`), and schedule the post-wait continuation. -/
def speak (s : AppState) (t : String) : AppState :=
  if s.isPlaying then
    { s with speechQueue := s.speechQueue ++ [t] }
  else
    let s1 := if s.recAvailable && s.isListening then recStopCall s else s
    let s2 := stopAllAudio { s1 with isPlaying := true }
    { s2 with isPlaying := true, timers := s2.timers ++ [TAction.playStart t] }

/-- The continuation of `speak` after its settle wait: `speakWithElevenLabs`
(`app.js:450-545`) installs the new audio as `this.currentAudio` (orphaning,
without pausing, whatever was there) and starts playback; then the queue tail
of `speak` (`app.js:371-376`) dequeues one entry, with no cap check, and
schedules speaking it. -/
def playStartStep (s : AppState) (t : String) : AppState :=
  let orphaned := match s.currentAudio with
    | some u => u :: s.extraAudios
    | none => s.extraAudios
  let s1 := { s with currentAudio := some t, extraAudios := orphaned, isPlaying := true }
  match s1.speechQueue with
  | [] => s1
  | next :: rest =>
      { s1 with speechQueue := rest, timers := s1.timers ++ [TAction.runSpeak next] }

/-- `startContinuousListening` (`app.js:703-783`): bail out when recognition
is unavailable or already listening; otherwise enable continuous mode, start
the capability, and on mobile arm the 20 s restart interval.  When the
capability is already running, `recognition.start()` throws `already started`
and the catch just sets `isListening` (`app.js:773-775`). -/
def startContinuousListening (s : AppState) : AppState :=
  if !s.recAvailable then s
  else if s.isListening then s
  else
    let s1 := { s with continuousListening := true }
    if s1.recActive then
      { s1 with isListening := true }
    else
      let s2 := { s1 with recActive := true, isListening := true }
      if s2.mobile && !s2.mobileInterval then { s2 with mobileInterval := true } else s2

/-- The body of the mobile watchdog interval (`app.js:735-767`): gated only
on `continuousListening && !isPlaying`; if listening, stop recognition, then
schedule the inner 200 ms restart. -/
def mobileRestartTick (s : AppState) : AppState :=
  if s.continuousListening && !s.isPlaying then
    let s1 := if s.isListening then { recStopCall s with isListening := false } else s
    { s1 with timers := s1.timers ++ [TAction.tickInner] }
  else s

/-- `audio.onended` (`app.js:500-526`): clear the playing state, schedule the
unguarded recognition restart after the 1500 ms settle delay when continuous
mode is on, then dequeue one queued speech, clearing the whole remainder if
more than 2 entries are left, and schedule speaking it after 500 ms. -/
def onended (s : AppState) : AppState :=
  let s1 := { s with isPlaying := false, currentAudio := none }
  let s2 := if s1.continuousListening && !s1.isListening then
      { s1 with timers := s1.timers ++ [TAction.restartPlain] }
    else s1
  match s2.speechQueue with
  | [] => s2
  | next :: rest =>
      let rest2 := if rest.length > 2 then [] else rest
      { s2 with speechQueue := rest2, timers := s2.timers ++ [TAction.runSpeak next] }

/-- `recognition.onend` (`app.js:159-175`): clear `isListening` and, when
continuous mode is on and nothing is playing, schedule the guarded restart. -/
def onend (s : AppState) : AppState :=
  let s1 := { s with pendingOnEnd := false, isListening := false }
  if s1.continuousListening && !s1.isPlaying then
    { s1 with timers := s1.timers ++ [TAction.restartGuarded] }
  else s1

/-- `recognition.onerror` (`app.js:143-157`): clear `isListening`; speak a
prompt for `no-speech` (only when not playing) and for `network`; all other
error kinds, including `not-allowed` (permission denied), take no branch.
The platform also stops the capability and owes an `onend`. -/
def onerror (s : AppState) (kind : ErrKind) : AppState :=
  let s1 := { recStopCall s with isListening := false }
  match kind with
  | ErrKind.noSpeech => if !s1.isPlaying then speak s1 noSpeechMsg else s1
  | ErrKind.network => speak s1 networkMsg
  | _ => s1

/-- `handleVoiceCommand` (`app.js:819-850`): answer `help` directly, stop
audio for `stop`/`quiet`, rewrite glasses questions, then capture a frame and
start the scene query, or speak the capture fallback. -/
def handleVoiceCommand (s : AppState) (command : String) : AppState :=
  let lower := lowerStr command
  if containsStr lower "help" then speak s helpMsg
  else if containsStr lower "stop" || containsStr lower "quiet" then stopAllAudio s
  else
    let command2 :=
      if containsStr lower "where" && (containsStr lower "glasses" || containsStr lower "sunglasses")
      then glassesQuery else command
    if s.cameraReady then
      { s with queryInFlight := true, pendingQuestion := some command2 }
    else speak s captureFailMsg

/-- `recognition.onresult` for a final result (`app.js:118-141`): trim the
transcript, apply the utterance filter, and if it accepts, stop recognition
and process the command.  The handler consults no state flag. -/
def onresult (s : AppState) (raw : String) : AppState :=
  let transcript := trimStr raw
  if filterAccepts transcript then
    handleVoiceCommand (recStopCall s) transcript
  else s

/-- Resolution of the in-flight `askAboutScene` fetch (`app.js:852-916`):
speak the answer on success, the apology on failure. -/
def queryDoneStep (s : AppState) (ok : Bool) (ans : String) : AppState :=
  let s1 := { s with queryInFlight := false, pendingQuestion := none }
  speak s1 (if ok then ans else apologyMsg)

/-- Fire one pending `setTimeout` continuation. -/
def fireAction (s : AppState) : TAction → AppState
  | TAction.runSpeak t => speak s t
  | TAction.playStart t => playStartStep s t
  | TAction.restartGuarded =>
      if s.continuousListening && !s.isPlaying then startContinuousListening s else s
  | TAction.restartPlain => startContinuousListening s
  | TAction.tickInner =>
      if s.continuousListening && !s.isPlaying && !s.isListening then
        (if s.recActive then s else { s with recActive := true, isListening := true })
      else s

/-- An event of the single-threaded callback loop. -/
inductive Ev where
  /-- Some component calls `this.speak(t)` (welcome message, scene answer,
  error prompt, ...). -/
  | speakReq (t : String)
  /-- A touch or click anywhere on the screen. -/
  | touch
  /-- The current audio element finishes and fires `onended`. -/
  | audioEnded
  /-- The platform delivers the owed `recognition.onend`. -/
  | recEnded
  /-- The platform delivers a final transcript to `recognition.onresult`. -/
  | result (t : String)
  /-- The platform delivers `recognition.onerror` with the given kind. -/
  | recError (k : ErrKind)
  /-- The mobile watchdog interval fires. -/
  | tick
  /-- The in-flight scene query resolves. -/
  | queryDone (ok : Bool) (ans : String)
  /-- The pending timer at index `i` fires. -/
  | fireTimer (i : Nat)

/-- Dispatch one event against the state, with the guards owned by the
platform (an audio can only end if playing, `onend` only when owed, errors
only from an active capability, ticks only from an armed interval, query
resolution only when in flight).  Transcripts carry no platform guard: late
final results can be delivered after a stop. -/
def stepE (s : AppState) (e : Ev) : AppState :=
  match e with
  | Ev.speakReq t => speak s t
  | Ev.touch => handleTouchControl s
  | Ev.audioEnded => if s.currentAudio.isSome then onended s else s
  | Ev.recEnded => if s.pendingOnEnd then onend s else s
  | Ev.result t => onresult s t
  | Ev.recError k => if s.recActive then onerror s k else s
  | Ev.tick => if s.mobileInterval then mobileRestartTick s else s
  | Ev.queryDone ok ans => if s.queryInFlight then queryDoneStep s ok ans else s
  | Ev.fireTimer i =>
      match s.timers.get? i with
      | none => s
      | some a => fireAction { s with timers := s.timers.eraseIdx i } a

/-- Run a sequence of events. -/
def runEvents (s : AppState) : List Ev → AppState
  | [] => s
  | e :: es => runEvents (stepE s e) es

/-- The steady desktop state right after startup: continuous listening is on
and the capability is armed, nothing queued, nothing playing. -/
def listeningInit : AppState :=
  { isPlaying := false, isListening := true, continuousListening := true,
    recAvailable := true, recActive := true, pendingOnEnd := false,
    queryInFlight := false, cameraReady := true, currentAudio := none,
    extraAudios := [], speechQueue := [], timers := [],
    mobile := false, mobileInterval := false, pendingQuestion := none }

/-- Projection fact used when reasoning about `handleVoiceCommand` after a
`recognition.stop()` call: stopping recognition does not change camera
readiness. -/
theorem recStopCall_cameraReady (s : AppState) :
    (recStopCall s).cameraReady = s.cameraReady := by
  unfold recStopCall; split <;> rfl

/-! ## Claim C1 -/

/-- Event trace for claim C1, realizable under the source delays: an answer
is spoken; the recognition `onend` arrives while it plays (no restart, since
`isPlaying` holds); playback starts; a second answer is queued; the first
playback ends, scheduling both the unguarded 1500 ms recognition restart
(`app.js:509-511`) and the queued speech at 500 ms (`app.js:522-524`); the
queued speech starts playing at about 800 ms; the restart then fires at
1500 ms, while the queued answer is still playing. -/
def c1Trace : List Ev :=
  [Ev.speakReq "answer one", Ev.recEnded, Ev.fireTimer 0, Ev.speakReq "answer two",
   Ev.audioEnded, Ev.fireTimer 1, Ev.fireTimer 1, Ev.fireTimer 0]

/-- C1: the claimed mutual-exclusion invariant (mic and playback never both
active) is violated by the code: after the trace `c1Trace`, the system is
`Speaking` — the queued answer is playing — while the speech-input
capability has been restarted and is armed.  The restart scheduled by
`audio.onended` does not recheck `isPlaying` when it fires, unlike every
other restart path in the source. -/
theorem c1_mic_and_playback_both_active :
    turnState (runEvents listeningInit c1Trace) = TState.Speaking ∧
    (runEvents listeningInit c1Trace).currentAudio = some "answer two" ∧
    (runEvents listeningInit c1Trace).recActive = true ∧
    (runEvents listeningInit c1Trace).isListening = true := by decide

/-! ## Claim C2 -/

/-- A `Speaking` state with one queued response, used for claim C2. -/
def c2State : AppState :=
  { listeningInit with isPlaying := true, currentAudio := some "current answer",
                       recActive := false, isListening := false,
                       speechQueue := ["queued answer"] }

/-- C2 counterexample: a touch interrupt while `Speaking` does not empty the
speech queue and does not transition to `Listening`: the queue keeps its
entry, no continuation is scheduled, and the state lands in `Idle` with the
mic off. -/
theorem c2_touch_interrupt_counterexample :
    turnState c2State = TState.Speaking ∧
    (stepE c2State Ev.touch).speechQueue = ["queued answer"] ∧
    (stepE c2State Ev.touch).timers = [] ∧
    turnState (stepE c2State Ev.touch) = TState.Idle := by decide

/-- C2 amended: a touch while playing stops playback immediately — and does
nothing else: the queue and the recognition state are untouched, and no
transition to `Listening` is scheduled (`handleTouchControl` only calls
`stopAllAudio`). -/
theorem c2_touch_stops_playback_only (s : AppState) (h : s.isPlaying = true) :
    stepE s Ev.touch = { s with isPlaying := false, currentAudio := none } := by
  simp [stepE, handleTouchControl, stopAllAudio, h]

/-- Witness for `c2_touch_stops_playback_only` at the concrete state
`c2State`. -/
theorem c2_touch_stops_playback_only_witness :
    c2State.isPlaying = true ∧
    stepE c2State Ev.touch = { c2State with isPlaying := false, currentAudio := none } :=
  ⟨rfl, c2_touch_stops_playback_only c2State rfl⟩

/-! ## Claim C3 -/

/-- A `Speaking` state with an empty queue, used for claim C3. -/
def c3State : AppState :=
  { listeningInit with isPlaying := true, currentAudio := some "playing now",
                       recActive := false, isListening := false }

/-- Three `speak` calls arriving while audio is playing. -/
def c3Trace : List Ev :=
  [Ev.speakReq "reply one", Ev.speakReq "reply two", Ev.speakReq "reply three"]

/-- C3 counterexample: enqueueing three items (one more than the claimed cap
of 2) in succession leaves a queue of length 3 — `speak` appends with no cap
check and no clearing, so the claimed clear-before-append behavior does not
exist. -/
theorem c3_enqueue_unbounded_counterexample :
    (runEvents c3State c3Trace).speechQueue = ["reply one", "reply two", "reply three"] ∧
    2 < (runEvents c3State c3Trace).speechQueue.length := by decide

/-- C3 amended: the cap is enforced at dequeue time instead: whenever a
playback ends, `audio.onended` dequeues one entry and clears the whole
remainder if more than 2 entries are left, so the queue it leaves behind
always has length at most 2. -/
theorem c3_queue_capped_on_dequeue (s : AppState) (a : String)
    (h : s.currentAudio = some a) :
    (stepE s Ev.audioEnded).speechQueue.length ≤ 2 := by
  have hs : s.currentAudio.isSome = true := by rw [h]; rfl
  rcases hq : s.speechQueue with _ | ⟨next, rest⟩ <;>
    by_cases hc : s.continuousListening = true ∧ s.isListening = false <;>
      simp [stepE, hs, onended, hq, hc] <;> split_ifs <;> first | decide | omega

/-- Witness for `c3_queue_capped_on_dequeue`: a playback ends with four
queued entries; the queue left behind is empty, hence within the cap. -/
def c3wState : AppState :=
  { listeningInit with isPlaying := true, currentAudio := some "playing now",
                       recActive := false, isListening := false,
                       speechQueue := ["q one", "q two", "q three", "q four"] }

/-- Witness theorem for `c3_queue_capped_on_dequeue` at `c3wState`. -/
theorem c3_queue_capped_on_dequeue_witness :
    c3wState.currentAudio = some "playing now" ∧
    (stepE c3wState Ev.audioEnded).speechQueue.length ≤ 2 :=
  ⟨rfl, c3_queue_capped_on_dequeue c3wState "playing now" rfl⟩

/-! ## Claim C4 -/

/-- A `Speaking` state in which the capability is still armed (reachable, cf.
claim C1), used for claim C4. -/
def c4State : AppState :=
  { listeningInit with isPlaying := true, currentAudio := some "the answer text" }

/-- C4 counterexample: a final transcript delivered while the system is
`Speaking` is not ignored: `recognition.onresult` consults no state flag, so
the accepted transcript triggers an external scene query and changes the
state. -/
theorem c4_transcript_processed_while_speaking :
    turnState c4State = TState.Speaking ∧
    (stepE c4State (Ev.result "what do you see")).queryInFlight = true ∧
    stepE c4State (Ev.result "what do you see") ≠ c4State := by decide

/-- C4 amended: the transcript handler ignores the turn state entirely — in
every state (also `Speaking` or `Processing`), a final transcript that the
filter accepts and that is not a help/stop/quiet command starts an external
query whenever the camera is ready. -/
theorem c4_result_handler_ignores_state (s : AppState) (t : String)
    (hacc : filterAccepts (trimStr t) = true)
    (hhelp : containsStr (lowerStr (trimStr t)) "help" = false)
    (hstop : containsStr (lowerStr (trimStr t)) "stop" = false)
    (hquiet : containsStr (lowerStr (trimStr t)) "quiet" = false)
    (hcam : s.cameraReady = true) :
    (stepE s (Ev.result t)).queryInFlight = true := by
  simp [stepE, onresult, hacc, handleVoiceCommand, hhelp, hstop, hquiet,
    recStopCall_cameraReady, hcam]

/-- Witness theorem for `c4_result_handler_ignores_state` at `c4State` with
the transcript `what do you see`. -/
theorem c4_result_handler_ignores_state_witness :
    filterAccepts (trimStr "what do you see") = true ∧
    c4State.cameraReady = true ∧
    (stepE c4State (Ev.result "what do you see")).queryInFlight = true :=
  ⟨by decide, rfl,
   c4_result_handler_ignores_state c4State "what do you see"
     (by decide) (by decide) (by decide) (by decide) rfl⟩

/-! ## Claim C5 -/

/-- A `Processing` state on mobile with the watchdog interval armed and the
capability (re)armed, used for claim C5. -/
def c5State : AppState :=
  { listeningInit with queryInFlight := true, mobile := true, mobileInterval := true,
                       pendingQuestion := some "where is my bag" }

/-- C5 counterexample: the watchdog tick is not a no-op in `Processing`: its
guard checks only `continuousListening && !isPlaying`, so with a query in
flight it stops recognition and schedules the inner restart — the state
changes. -/
theorem c5_watchdog_restarts_in_processing :
    turnState c5State = TState.Processing ∧
    c5State.recActive = true ∧
    (stepE c5State Ev.tick).recActive = false ∧
    (stepE c5State Ev.tick).timers = [TAction.tickInner] ∧
    stepE c5State Ev.tick ≠ c5State := by decide

/-- C5 amended: the watchdog tick is a no-op while `Speaking` only: whenever
`isPlaying` holds, firing the interval leaves the state unchanged. -/
theorem c5_watchdog_noop_while_speaking (s : AppState) (h : s.isPlaying = true) :
    stepE s Ev.tick = s := by
  simp [stepE, mobileRestartTick, h]

/-- A mobile `Speaking` state used as witness input for claim C5. -/
def c5wState : AppState :=
  { listeningInit with isPlaying := true, currentAudio := some "speaking text",
                       recActive := false, isListening := false,
                       mobile := true, mobileInterval := true }

/-- Witness theorem for `c5_watchdog_noop_while_speaking` at `c5wState`. -/
theorem c5_watchdog_noop_while_speaking_witness :
    c5wState.isPlaying = true ∧ stepE c5wState Ev.tick = c5wState :=
  ⟨rfl, c5_watchdog_noop_while_speaking c5wState rfl⟩

/-! ## Claim C6 -/

/-- C6: for a transcript not rejected by the echo denylist, the filter
accepts exactly when the transcript has four or more words, or has a domain
keyword and at least two words. -/
theorem c6_filter_accept_iff (t : String) (h : isEcho t = false) :
    filterAccepts t = true ↔
      (4 ≤ (wordsOf t).length ∨
        (hasQuestionWord t = true ∧ 2 ≤ (wordsOf t).length)) := by
  unfold filterAccepts
  rw [h]
  simp only [Bool.not_false, Bool.true_and, Bool.or_eq_true, Bool.and_eq_true,
    decide_eq_true_eq]
  constructor
  · rintro (h1 | ⟨h2, h3⟩)
    · exact Or.inl (by omega)
    · exact Or.inr ⟨h2, by omega⟩
  · rintro (h1 | ⟨h2, h3⟩)
    · exact Or.inl (by omega)
    · exact Or.inr ⟨h2, by omega⟩

/-- Witness theorem for `c6_filter_accept_iff` at the transcript
`what do you see`. -/
theorem c6_filter_accept_iff_witness :
    isEcho "what do you see" = false ∧
      (filterAccepts "what do you see" = true ↔
        (4 ≤ (wordsOf "what do you see").length ∨
          (hasQuestionWord "what do you see" = true ∧
            2 ≤ (wordsOf "what do you see").length))) :=
  ⟨by decide, c6_filter_accept_iff "what do you see" (by decide)⟩

/-! ## Claim C7 -/

/-- C7: a transcript matching the echo denylist is rejected by the filter,
whatever its word count or keyword content. -/
theorem c7_denylist_rejects (t : String) (h : isEcho t = true) :
    filterAccepts t = false := by
  unfold filterAccepts
  rw [h]
  rfl

/-- Witness theorem for `c7_denylist_rejects`: an echo transcript with eight
words and several domain keywords is still rejected. -/
theorem c7_denylist_rejects_witness :
    isEcho "I see the person on the left wearing a backpack" = true ∧
    filterAccepts "I see the person on the left wearing a backpack" = false :=
  ⟨by decide, c7_denylist_rejects "I see the person on the left wearing a backpack" (by decide)⟩

/-! ## Claim C8 -/

/-- Permission-denied error followed by the owed `onend` and the scheduled
restart, from the steady listening state. -/
def c8Trace : List Ev :=
  [Ev.recError ErrKind.notAllowed, Ev.recEnded, Ev.fireTimer 0]

/-- C8 counterexample: after a permission-denied (`not-allowed`) error the
listening subsystem does not terminate: nothing is spoken (queue empty, no
playback, no pending speech), continuous mode is still enabled, and the
`onend` auto-restart has already re-armed the capability — the retry loop
continues. -/
theorem c8_permission_denied_retries_counterexample :
    (runEvents listeningInit c8Trace).recActive = true ∧
    (runEvents listeningInit c8Trace).continuousListening = true ∧
    (runEvents listeningInit c8Trace).speechQueue = [] ∧
    (runEvents listeningInit c8Trace).currentAudio = none ∧
    (runEvents listeningInit c8Trace).timers = [] := by decide

/-- C8 amended: only the unsupported case is terminal — with no recognition
object, `startContinuousListening` is a no-op (the condition was surfaced
once at initialization).  A runtime permission-denied error is not treated
specially: the handler speaks nothing for it, continuous mode stays enabled,
and the `onend` handler schedules a restart, so recognition is retried
indefinitely. -/
theorem c8_unsupported_terminal_but_permission_retries :
    (∀ s : AppState, s.recAvailable = false → startContinuousListening s = s) ∧
    (∀ s : AppState, s.recActive = true → s.continuousListening = true →
      s.isPlaying = false →
      runEvents s [Ev.recError ErrKind.notAllowed, Ev.recEnded] =
        { s with recActive := false, isListening := false, pendingOnEnd := false,
                 timers := s.timers ++ [TAction.restartGuarded] }) := by
  constructor
  · intro s h
    simp [startContinuousListening, h]
  · intro s h1 h2 h3
    cases s
    simp_all [runEvents, stepE, onerror, onend, recStopCall]

/-- The degraded state with no recognition object, as after an unsupported
capability at initialization (`app.js:89-93`). -/
def c8NoRecState : AppState :=
  { listeningInit with recAvailable := false, recActive := false, isListening := false }

/-- Witness theorem for `c8_unsupported_terminal_but_permission_retries`,
instantiating the unsupported part at `c8NoRecState` and the
permission-denied part at `listeningInit`. -/
theorem c8_unsupported_terminal_but_permission_retries_witness :
    (c8NoRecState.recAvailable = false ∧
      startContinuousListening c8NoRecState = c8NoRecState) ∧
    (listeningInit.recActive = true ∧
      runEvents listeningInit [Ev.recError ErrKind.notAllowed, Ev.recEnded] =
        { listeningInit with recActive := false, isListening := false,
                             pendingOnEnd := false,
                             timers := listeningInit.timers ++ [TAction.restartGuarded] }) :=
  ⟨⟨rfl, c8_unsupported_terminal_but_permission_retries.1 c8NoRecState rfl⟩,
   ⟨rfl, c8_unsupported_terminal_but_permission_retries.2 listeningInit rfl rfl rfl⟩⟩

/-! ## Claim C9 -/

/-- A `Speaking` state with one queued reply, used for claim C9. -/
def c9State : AppState :=
  { listeningInit with isPlaying := true, currentAudio := some "current answer",
                       recActive := false, isListening := false,
                       speechQueue := ["queued reply"] }

/-- C9 counterexample: the state after a single `stopAllAudio` call does not
have an empty queue — the operation never touches `speechQueue`. -/
theorem c9_stop_all_audio_leaves_queue :
    (stopAllAudio c9State).speechQueue = ["queued reply"] ∧
    (stopAllAudio c9State).speechQueue ≠ [] := by decide

/-- C9 amended: `stopAllAudio` is idempotent — a second call has no further
effect (and raises no error: the source guards the pause with a null check
and a try/catch) — and it stops playback; but it leaves the speech queue
exactly as it was rather than emptying it. -/
theorem c9_stop_all_audio_idempotent (s : AppState) :
    stopAllAudio (stopAllAudio s) = stopAllAudio s ∧
    (stopAllAudio s).isPlaying = false ∧
    (stopAllAudio s).speechQueue = s.speechQueue :=
  ⟨rfl, rfl, rfl⟩

/-! ## Claim C10 -/

/-- An idle-mic state (nothing playing, recognition off), used for claim
C10. -/
def c10State : AppState :=
  { listeningInit with isListening := false, recActive := false }

/-- Trace for claim C10: a speak starts its 300 ms settle wait; a touch
during the wait clears `isPlaying`; a second speak then passes the
`isPlaying` guard and schedules its own playback; both pending playback
continuations fire. -/
def c10Trace : List Ev :=
  [Ev.speakReq "first reply", Ev.touch, Ev.speakReq "second reply",
   Ev.fireTimer 0, Ev.fireTimer 0]

/-- C10 counterexample: two playbacks can be active at the same time — after
`c10Trace`, the first reply is still playing as an orphaned audio element
while the second is the current one, so the at-most-one-playback conclusion
(and the unreachability of the double-speak caller error of the playback
port) does not hold. -/
theorem c10_two_playbacks_counterexample :
    (runEvents c10State c10Trace).currentAudio = some "second reply" ∧
    (runEvents c10State c10Trace).extraAudios = ["first reply"] ∧
    activePlaybackCount (runEvents c10State c10Trace) = 2 := by decide

/-- C10 amended: a `speak` call made while audio is playing only appends the
text to the speech queue and changes nothing else — in particular it starts
no playback and schedules no continuation. -/
theorem c10_speak_while_playing_only_queues (s : AppState) (t : String)
    (h : s.isPlaying = true) :
    stepE s (Ev.speakReq t) = { s with speechQueue := s.speechQueue ++ [t] } := by
  simp [stepE, speak, h]

/-- A `Speaking` state used as witness input for claim C10. -/
def c10wState : AppState :=
  { listeningInit with isPlaying := true, currentAudio := some "current reply",
                       recActive := false, isListening := false }

/-- Witness theorem for `c10_speak_while_playing_only_queues` at
`c10wState`. -/
theorem c10_speak_while_playing_only_queues_witness :
    c10wState.isPlaying = true ∧
    stepE c10wState (Ev.speakReq "extra reply") =
      { c10wState with speechQueue := c10wState.speechQueue ++ ["extra reply"] } :=
  ⟨rfl, c10_speak_while_playing_only_queues c10wState "extra reply" rfl⟩

end BlindVisionApp
